import Mathlib

/-!
Shallow embedding of the loan-prediction service (prabesh-suwal/loan-prediction).

Conventions of the embedding:
* Python numbers are modelled as `ℚ` (the code uses ints/floats with exact
  small constants; no float-rounding behaviour is relied on by any property).
* A Python dict of applicant fields is modelled as a structure of `Option`
  fields; `none` covers both "key absent" and "value is None", which the
  validator treats identically (`field not in data or data[field] is None`).
* Raising an exception is modelled with `Except`; Python division is modelled
  by `pyDiv`, which returns the `zeroDivision` error when the divisor is 0.
* String messages from the source are reproduced with the decorative quote
  characters around field names elided.
-/

/-- A loan-application input record, mirroring the dict handled by
`app/utils/validators.py` (`LoanValidator.validate_loan_application`). -/
structure LoanData where
  gender : Option String
  married : Option String
  dependents : Option ℚ
  education : Option String
  self_employed : Option String
  applicant_income : Option ℚ
  coapplicant_income : Option ℚ
  loan_amount : Option ℚ
  loan_amount_term : Option ℚ
  credit_history : Option ℚ
  property_area : Option String
deriving Repr, DecidableEq

/-- Exceptions the validator can raise: Python's ZeroDivisionError, or the
repository's custom ValidationError carrying the list of accumulated error
messages (the source joins them into one message string). -/
inductive VError where
  | zeroDivision : VError
  | validation : List String → VError
deriving Repr, DecidableEq

deriving instance DecidableEq for Except

/-- Python division: raises ZeroDivisionError when the divisor is zero. -/
def pyDiv (a b : ℚ) : Except VError ℚ :=
  if b = 0 then .error .zeroDivision else .ok (a / b)

/-- Phase 1 of validate_loan_application as a rule table: the loop over
`required_fields` pairs each field's absence test (absent or None) with its
message, in `required_fields` order. -/
def missingRules (d : LoanData) : List (Bool × String) :=
  [(d.gender.isNone, "Field gender is required"),
   (d.married.isNone, "Field married is required"),
   (d.dependents.isNone, "Field dependents is required"),
   (d.education.isNone, "Field education is required"),
   (d.self_employed.isNone, "Field self_employed is required"),
   (d.applicant_income.isNone, "Field applicant_income is required"),
   (d.coapplicant_income.isNone, "Field coapplicant_income is required"),
   (d.loan_amount.isNone, "Field loan_amount is required"),
   (d.loan_amount_term.isNone, "Field loan_amount_term is required"),
   (d.credit_history.isNone, "Field credit_history is required"),
   (d.property_area.isNone, "Field property_area is required")]

/-- Phase 1 of validate_loan_application: one error message per missing
required field, in the order of `required_fields`. -/
def missingFieldErrors (d : LoanData) : List String :=
  (missingRules d).filterMap fun p => if p.1 then some p.2 else none

/-- Enumeration-domain check for a string-valued field: flagged only when the
field is present and its value is outside the closed list. -/
def invalidStr (v : Option String) (valid : List String) : Bool :=
  match v with
  | some s => decide (s ∉ valid)
  | none => false

/-- Enumeration-domain check for a numeric field (credit_history ∈ [0, 1]). -/
def invalidNum (v : Option ℚ) (valid : List ℚ) : Bool :=
  match v with
  | some x => decide (x ∉ valid)
  | none => false

/-- Total household income as computed in the validator:
`data.get('applicant_income', 0) + data.get('coapplicant_income', 0)`. -/
def totalIncome (d : LoanData) : ℚ :=
  d.applicant_income.getD 0 + d.coapplicant_income.getD 0

/-- Phase 2 of validate_loan_application, without the EMI block, as a rule
table: each entry pairs the violation condition with its message, in source
order (the enumeration-domain checks in `valid_values` dict order, then the
numeric-sanity checks, then the income floor). -/
def baseRules (d : LoanData) : List (Bool × String) :=
  [(invalidStr d.gender ["Male", "Female"],
      "Field gender must be one of [Male, Female]"),
   (invalidStr d.married ["Yes", "No"],
      "Field married must be one of [Yes, No]"),
   (invalidStr d.education ["Graduate", "Not Graduate"],
      "Field education must be one of [Graduate, Not Graduate]"),
   (invalidStr d.self_employed ["Yes", "No"],
      "Field self_employed must be one of [Yes, No]"),
   (invalidStr d.property_area ["Urban", "Semiurban", "Rural"],
      "Field property_area must be one of [Urban, Semiurban, Rural]"),
   (invalidNum d.credit_history [0, 1],
      "Field credit_history must be one of [0, 1]"),
   (decide (d.applicant_income.getD 0 ≤ 0),
      "Applicant income must be positive"),
   (decide (d.coapplicant_income.getD 0 < 0),
      "Co-applicant income cannot be negative"),
   (decide (d.loan_amount.getD 0 ≤ 0),
      "Loan amount must be positive"),
   (decide (d.loan_amount_term.getD 0 ≤ 0),
      "Loan amount term must be positive"),
   (decide (d.dependents.getD 0 < 0),
      "Number of dependents cannot be negative"),
   (decide (totalIncome d < 1000),
      "Total household income is too low")]

/-- The accumulated error messages of the triggered phase-2 rules, in source
order (the source appends each message to `errors` as its check fires). -/
def baseErrors (d : LoanData) : List String :=
  (baseRules d).filterMap fun p => if p.1 then some p.2 else none

/-- The EMI violation message from the source. -/
def emiMsg : String := "EMI to income ratio is too high (>80%)"

/-- The EMI block of validate_loan_application. The guard mirrors Python
truthiness: it runs only when loan_amount and loan_amount_term are present and
non-zero. Inside, `emi = loan_amount / loan_amount_term`, and the quotient of
emi by total income is taken only when total income is strictly positive;
otherwise the Python code uses float inf, which always exceeds 0.8, so the
violation is flagged unconditionally in that branch. -/
def emiCheck (d : LoanData) : Except VError (List String) :=
  match d.loan_amount, d.loan_amount_term with
  | some la, some t =>
    if la = 0 ∨ t = 0 then .ok []
    else
      match pyDiv la t with
      | .error e => .error e
      | .ok emi =>
        if 0 < totalIncome d then
          match pyDiv emi (totalIncome d) with
          | .error e => .error e
          | .ok r => if (4 : ℚ)/5 < r then .ok [emiMsg] else .ok []
        else .ok [emiMsg]
  | _, _ => .ok []

/-- LoanValidator.validate_loan_application. Phase 1 raises with all
missing-field messages if any required field is missing; otherwise phase 2
accumulates enum, numeric and business-rule violations and raises them
together. A ZeroDivisionError in the EMI block would propagate before the
final raise (the source performs the division before checking `errors`). -/
def validate_loan_application (d : LoanData) : Except VError Unit :=
  if missingFieldErrors d = [] then
    match emiCheck d with
    | .error e => .error e
    | .ok emiErrs =>
      let errs := baseErrors d ++ emiErrs
      if errs = [] then .ok () else .error (.validation errs)
  else .error (.validation (missingFieldErrors d))

/-- Pure description of when the EMI block flags its violation: the guard of
the block holds (loan fields present and non-zero) and either total income is
positive with quotient above 0.8, or total income is non-positive (the float
inf branch, which always exceeds 0.8). -/
def emiFlag (d : LoanData) : Bool :=
  match d.loan_amount, d.loan_amount_term with
  | some la, some t =>
    if la = 0 ∨ t = 0 then false
    else if 0 < totalIncome d then decide ((4 : ℚ)/5 < la / t / totalIncome d)
    else true
  | _, _ => false

/-- A fully-populated, fully-valid sample application (the unit-test sample:
income 5849, loan 128 over 360, credit history 1). -/
def sampleData : LoanData :=
  { gender := some "Male", married := some "Yes", dependents := some 1,
    education := some "Graduate", self_employed := some "No",
    applicant_income := some 5849, coapplicant_income := some 0,
    loan_amount := some 128, loan_amount_term := some 360,
    credit_history := some 1, property_area := some "Urban" }

/-! Weight repository (`app/core/repositories/weight_repository.py`). -/

/-- A row of the FeatureWeights table as seen by the repository. -/
structure WeightRow where
  feature_name : String
  weight : ℚ
  is_active : Bool
deriving Repr, DecidableEq

/-- Insertion into a Python dict keyed by strings: an existing key has its
value replaced in place, a new key is appended. -/
def dictInsert (m : List (String × ℚ)) (k : String) (v : ℚ) :
    List (String × ℚ) :=
  if m.any fun p => p.1 = k then
    m.map fun p => if p.1 = k then (k, v) else p
  else m ++ [(k, v)]

/-- The dict comprehension over query rows:
`{weight.feature_name: weight.weight for weight in weights}`. -/
def buildWeightDict (rows : List WeightRow) : List (String × ℚ) :=
  rows.foldl (fun m r => dictInsert m r.feature_name r.weight) []

/-- Dict lookup (first entry with the key; keys are unique by construction). -/
def dictGet (m : List (String × ℚ)) (k : String) : Option ℚ :=
  (m.find? fun p => p.1 = k).map Prod.snd

/-- WeightRepository._get_default_weights, the hardcoded fallback table. -/
def default_weights : List (String × ℚ) :=
  [("credit_history", 5/2), ("total_income", 2), ("emi_income_ratio", 9/5),
   ("loan_amount", 3/2), ("education", 6/5), ("employment_stability", 11/10),
   ("property_area", 1), ("self_employed", 9/10), ("married", 4/5),
   ("dependents", 7/10), ("gender", 1/2)]

/-- WeightRepository.get_active_weights, parametrised by the outcome of the
backing-store query (the ORM query either yields the table rows or raises;
both the ImportError handler and the generic handler return the default
table, so any failure maps to the error case here). The function is total:
no exception escapes. -/
def get_active_weights (q : Except String (List WeightRow)) :
    List (String × ℚ) :=
  match q with
  | .ok rows => buildWeightDict (rows.filter fun r => r.is_active)
  | .error _ => default_weights

/-! Admin service (`app/core/services/admin_service.py`). -/

/-- AdminService.update_feature_weight, parametrised by the boolean outcome
the weight repository's update_weight would return (that method catches its
own exceptions and returns False). Raises ValidationError (modelled as the
error case) exactly on `weight <= 0 or weight > 10`. -/
def update_feature_weight (weight : ℚ) (repoOutcome : Bool) :
    Except String Bool :=
  if weight ≤ 0 ∨ 10 < weight then .error "Weight must be between 0 and 10"
  else .ok repoOutcome

/-! Predictor. Modelled from the spec: the module `app/ml/models/predictor.py`
(class LoanPredictor) is imported by the loan service but is not among the
sources here; only its callers are. The definitions below follow spec 4.2:
the predictor caches an optional loaded model; if the load failed or no model
file exists every prediction transparently uses a deterministic weighted-sum
fallback; fallback scoring is a linear combination of normalized factors,
each multiplied by an admin-configurable weight, summed and mapped to the
risk scale 0 to 100; thresholds below 30 / 30 to 70 / above 70 partition the
risk category Low / Medium / High. -/

/-- The prediction-result record assembled by the predictor (the keys read by
the service and the repositories; pass-through extras are elided). -/
structure PredictionResult where
  loan_decision : String
  risk_score : ℚ
  risk_category : String
  recommendation : String
  confidence_score : Option ℚ
  key_risk_factors : List String
  key_positive_factors : List String
deriving Repr, DecidableEq

/-- Clamp onto the unit interval (normalization of a factor). -/
def normalize01 (x : ℚ) : ℚ := max 0 (min 1 x)

/-- Clamp onto the risk scale 0 to 100 ("mapped to the risk scale"). -/
def clampScore (x : ℚ) : ℚ := max 0 (min 100 x)

/-- Risk-category thresholds used by the predictor. -/
def riskCategoryOf (score : ℚ) : String :=
  if score < 30 then "Low" else if score ≤ 70 then "Medium" else "High"

/-- Modelled from the spec: the normalized factors of the fallback scorer
(credit history, income adequacy, EMI burden, education, employment type,
property area, marital status, dependents), each normalized into the unit
interval. The exact factor formulas are not given by the spec; each value is
explicitly normalized, which is all the stated properties depend on. -/
def fallbackFactors (d : LoanData) : List (String × ℚ) :=
  [("credit_history", normalize01 (d.credit_history.getD 0)),
   ("total_income", normalize01 (totalIncome d / 10000)),
   ("emi_income", normalize01 (1 -
      (if 0 < totalIncome d then
        d.loan_amount.getD 0 / d.loan_amount_term.getD 1 / totalIncome d
      else 1))),
   ("education", if d.education = some "Graduate" then 1 else 0),
   ("employment_stability", if d.self_employed = some "No" then 1 else 0),
   ("property_area",
      if d.property_area = some "Urban" ∨ d.property_area = some "Semiurban"
      then 1 else 0),
   ("married", if d.married = some "Yes" then 1 else 0),
   ("dependents", normalize01 (1 - d.dependents.getD 0 / 4))]

/-- Weight of a named factor under the injected admin weights (default 1). -/
def weightOf (ws : List (String × ℚ)) (name : String) : ℚ :=
  ((ws.find? fun p => p.1 = name).map Prod.snd).getD 1

/-- Modelled from the spec: the fallback risk score, a weighted sum of the
normalized factors mapped onto the risk scale (higher factor goodness maps to
lower risk). -/
def fallbackScore (ws : List (String × ℚ)) (d : LoanData) : ℚ :=
  let fs := fallbackFactors d
  let wsum := (fs.map fun p => weightOf ws p.1).sum
  let raw := (fs.map fun p => weightOf ws p.1 * p.2).sum
  let goodness := if 0 < wsum then raw / wsum else 0
  clampScore (100 * (1 - goodness))

/-- Modelled from the spec: the complete fallback prediction result. -/
def fallbackPredict (ws : List (String × ℚ)) (d : LoanData) :
    PredictionResult :=
  let score := fallbackScore ws d
  { loan_decision := if score ≤ 70 then "Yes" else "No",
    risk_score := score,
    risk_category := riskCategoryOf score,
    recommendation := if score ≤ 70 then "Approve" else "Reject",
    confidence_score := some (normalize01 (1 - score / 100)),
    key_risk_factors :=
      (fallbackFactors d).filterMap fun p =>
        if p.2 < 1/2 then some p.1 else none,
    key_positive_factors :=
      (fallbackFactors d).filterMap fun p =>
        if 1/2 ≤ p.2 then some p.1 else none }

/-- Modelled from the spec: the loaded classifier, abstracted as a calibrated
probability of default (the ML path may also fail at call time). -/
structure MLModel where
  predictProb : LoanData → List (String × ℚ) → Except String ℚ

/-- Modelled from the spec: the result assembled on the ML path, with the
calibrated probability mapped onto the risk scale and the same fixed
category thresholds. -/
def mlResult (d : LoanData) (prob : ℚ) : PredictionResult :=
  let score := clampScore (100 * prob)
  { loan_decision := if score ≤ 70 then "Yes" else "No",
    risk_score := score,
    risk_category := riskCategoryOf score,
    recommendation := if score ≤ 70 then "Approve" else "Reject",
    confidence_score := some (normalize01 prob),
    key_risk_factors :=
      (fallbackFactors d).filterMap fun p =>
        if p.2 < 1/2 then some p.1 else none,
    key_positive_factors :=
      (fallbackFactors d).filterMap fun p =>
        if 1/2 ≤ p.2 then some p.1 else none }

/-- Modelled from the spec: the predictor caches the optional loaded model. -/
structure LoanPredictor where
  model : Option MLModel

/-- Modelled from the spec: predictor construction from the outcome of the
one-time model-artifact load; a load failure is caught and leaves no model. -/
def mkPredictor (load : Except String MLModel) : LoanPredictor :=
  { model := load.toOption }

/-- Modelled from the spec: LoanPredictor.predict. Without a loaded model the
deterministic fallback scorer answers; with one, the ML path answers and a
runtime ML failure surfaces as a prediction error. -/
def LoanPredictor.predict (p : LoanPredictor) (d : LoanData)
    (ws : List (String × ℚ)) : Except String PredictionResult :=
  match p.model with
  | none => .ok (fallbackPredict ws d)
  | some m =>
    match m.predictProb d ws with
    | .ok prob => .ok (mlResult d prob)
    | .error e => .error e

/-! Explainer (`app/ml/explainer/llm_explainer.py`). -/

/-- LLMExplainer._generate_rule_based_explanation. Python division is kept
fallible: `input_data.get('loan_amount', 0) / input_data.get('loan_amount_term', 1)`
raises ZeroDivisionError when loan_amount_term is present and equals 0. -/
def ruleBasedExplanation (d : LoanData) (pred : PredictionResult) :
    Except VError String :=
  match pyDiv (d.loan_amount.getD 0) (d.loan_amount_term.getD 1) with
  | .error e => .error e
  | .ok emi =>
    let ti := totalIncome d
    match (if 0 < ti then pyDiv emi ti else .ok 0) with
    | .error e => .error e
    | .ok emiRate =>
      let parts : List String :=
        if pred.loan_decision = "Yes" then
          ["Loan approved based on"]
          ++ (if d.credit_history = some 1 then ["good credit history"] else [])
          ++ (if emiRate < 3/10 then ["manageable EMI burden"] else [])
          ++ (if 5000 < ti then ["adequate income level"] else [])
        else
          ["Loan rejected due to"]
          ++ (if d.credit_history = some 0 then ["poor credit history"] else [])
          ++ (if 1/2 < emiRate then ["high EMI-to-income ratio"] else [])
          ++ (if ti < 3000 then ["insufficient income"] else [])
      let parts := parts
        ++ (if 70 < pred.risk_score then ["and high financial risk"]
            else if pred.risk_score < 30 then ["with low financial risk"]
            else [])
      match parts with
      | [] => .ok ""
      | [base] => .ok (base ++ " standard eligibility criteria.")
      | base :: rest =>
        let lastF := (rest.getLast?).getD ""
        let mids := rest.dropLast
        if mids = [] then .ok (base ++ " " ++ lastF ++ ".")
        else .ok (base ++ " " ++ String.intercalate ", " mids ++ ", and "
          ++ lastF ++ ".")

/-- LLMExplainer.generate_explanation, parametrised by the configured client:
`none` models missing credentials (no client), `some outcome` models the
external chat-completion call with its success value (already stripped) or
its raised error. Without a client, or when the call raises, the rule-based
fallback answers; the call is made at most once (no retry). -/
def generate_explanation (client : Option (Except String String))
    (d : LoanData) (pred : PredictionResult) : Except VError String :=
  match client with
  | none => ruleBasedExplanation d pred
  | some (.ok s) => .ok s
  | some (.error _) => ruleBasedExplanation d pred

/-! Loan service (`app/core/services/loan_service.py`). -/

/-- The errors process_loan_application can surface to its caller. -/
inductive ServiceError where
  | validationError : String → ServiceError
  | predictionError : String → ServiceError
deriving Repr, DecidableEq

/-- The response record assembled by LoanService._build_response (optional
pass-through extras elided). -/
structure LoanPredictionResponse where
  application_id : String
  loan_decision : String
  risk_score : ℚ
  risk_category : String
  justification : String
  recommendation : String
  confidence_score : Option ℚ
  key_risk_factors : List String
  key_positive_factors : List String
deriving Repr, DecidableEq

/-- LoanService._generate_fallback_explanation (rule-based service-side
fallback used when the explainer is unavailable or raised). -/
def serviceFallbackExplanation (pred : PredictionResult) : String :=
  let risk_factors := pred.key_risk_factors
  let positive_factors := pred.key_positive_factors
  let scoreTxt := toString pred.risk_score
  (if pred.loan_decision = "Yes" then
    "Loan approved with risk score " ++ scoreTxt ++ "/100. "
    ++ (if positive_factors ≠ [] then
        "Key strengths: " ++ String.intercalate ", " (positive_factors.take 3)
          ++ ". "
      else "")
    ++ (if risk_factors ≠ [] then
        "Areas to monitor: " ++ String.intercalate ", " (risk_factors.take 2)
          ++ "."
      else "")
  else
    "Loan rejected due to high risk score " ++ scoreTxt ++ "/100. "
    ++ (if risk_factors ≠ [] then
        "Primary concerns: " ++ String.intercalate ", " (risk_factors.take 3)
          ++ ". "
      else "")
    ++ "Consider improving financial profile before reapplying.").trim

/-- LoanService._build_response. -/
def buildResponse (appId : String) (pred : PredictionResult)
    (explanation : String) : LoanPredictionResponse :=
  { application_id := appId,
    loan_decision := pred.loan_decision,
    risk_score := pred.risk_score,
    risk_category := pred.risk_category,
    justification := explanation,
    recommendation := pred.recommendation,
    confidence_score := pred.confidence_score,
    key_risk_factors := pred.key_risk_factors,
    key_positive_factors := pred.key_positive_factors }

/-- LoanService._save_application_async: the repository call either returns a
saved record (`.ok (some _)`), returns None (`.ok none`, logged as a
warning), or raises (`.error`, logged); every branch returns control
normally, so the outcome never influences the response. -/
def saveApplicationSwallowed (outcome : Except String (Option Unit)) : Unit :=
  match outcome with
  | .ok (some _) => ()
  | .ok none => ()
  | .error _ => ()

/-- The environment of one process_loan_application call: the outcomes of the
collaborator calls it makes, in the order it makes them. The prediction
outcome is a function of the weights actually passed to the predictor. -/
structure ServiceEnv where
  predictorPresent : Bool
  validationOutcome : Except (List String) Unit
  weightsOutcome : Except String (List (String × ℚ))
  predictionOutcome : List (String × ℚ) → Except String PredictionResult
  explanationOutcome : Except String String
  persistOutcome : Except String (Option Unit)

/-- The weights the service ends up using: `weights = {}` is kept when the
weight-repository call raises (the handler only logs). -/
def effectiveWeights (env : ServiceEnv) : List (String × ℚ) :=
  match env.weightsOutcome with
  | .ok w => w
  | .error _ => []

/-- The explanation text the service ends up using: the explainer's output,
or LoanService._generate_fallback_explanation when the explainer is
unavailable or raised (LoanService._generate_explanation swallows either). -/
def explanationUsed (env : ServiceEnv) (pred : PredictionResult) : String :=
  match env.explanationOutcome with
  | .ok s => s
  | .error _ => serviceFallbackExplanation pred

/-- LoanService.process_loan_application: validation via the predictor (when
present), best-effort weight fetch, predictor-presence check, prediction,
explanation with service-side fallback, response assembly, best-effort save.
Validation and prediction errors propagate; weight-fetch, explanation and
persistence failures are swallowed. -/
def process_loan_application (appId : String) (env : ServiceEnv) :
    Except ServiceError LoanPredictionResponse :=
  match (if env.predictorPresent then env.validationOutcome else .ok ()) with
  | .error msgs =>
    .error (.validationError
      ("Input validation failed: " ++ String.intercalate "; " msgs))
  | .ok _ =>
    let ws := effectiveWeights env
    if env.predictorPresent = false then
      .error (.predictionError "Predictor not available")
    else
      match env.predictionOutcome ws with
      | .error e => .error (.predictionError e)
      | .ok pred =>
        let response := buildResponse appId pred (explanationUsed env pred)
        let _unit := saveApplicationSwallowed env.persistOutcome
        .ok response

/-! Review queue (`app/core/repositories/loan_repository.py`,
LoanRepository.get_applications_for_review). -/

/-- A LoanApplication row as read by the review-queue query. -/
structure AppRow where
  application_id : String
  applicant_income : Option ℚ
  loan_amount : Option ℚ
  predicted_approval : Option String
  risk_score : Option ℚ
  risk_category : Option String
  recommendation : Option String
  final_status : Option String
  created_at : Nat
deriving Repr, DecidableEq

/-- The SQL filter: `final_status IS NULL AND risk_score > 60` (a NULL
risk_score fails the comparison). -/
def needsReview (a : AppRow) : Bool :=
  a.final_status.isNone &&
    (match a.risk_score with
     | some r => decide ((60 : ℚ) < r)
     | none => false)

/-- `ORDER BY created_at DESC`. -/
def byCreatedDesc (a b : AppRow) : Bool := b.created_at ≤ a.created_at

/-- The page returned by get_applications_for_review. -/
structure ReviewPage where
  applications : List AppRow
  total_count : Nat
  has_more : Bool
deriving Repr, DecidableEq

/-- LoanRepository.get_applications_for_review over the outcome of the query
(the table rows, or a raised error, which the handler maps to the empty
page). total_count counts the filtered rows before offset and limit;
has_more is `total_count > offset + limit`. -/
def get_applications_for_review (q : Except String (List AppRow))
    (limit offset : Nat) : ReviewPage :=
  match q with
  | .error _ => { applications := [], total_count := 0, has_more := false }
  | .ok rows =>
    let sorted := (rows.filter needsReview).mergeSort byCreatedDesc
    let total := sorted.length
    { applications := (sorted.drop offset).take limit,
      total_count := total,
      has_more := decide (offset + limit < total) }

/-! Auxiliary definitions for the statements, and concrete inputs. -/

/-- Whether an Except value is an error (a raised exception). -/
def raises {ε α : Type} : Except ε α → Bool
  | .error _ => true
  | .ok _ => false

/-- Threshold function written from the spec text for comparison with the
predictor's assignment: score below 30 is Low, 30 to 70 is Medium, above 70
is High. -/
def riskCategorySpec (s : ℚ) : String :=
  if s < 30 then "Low" else if s ≤ 70 then "Medium" else "High"

/-- The sample prediction result used by the unit test (risk 22, Low). -/
def samplePred : PredictionResult :=
  { loan_decision := "Yes", risk_score := 22, risk_category := "Low",
    recommendation := "Approve", confidence_score := some (87/100),
    key_risk_factors := [], key_positive_factors := [] }

/-- sampleData with an out-of-domain gender value. -/
def invalidGenderData : LoanData := { sampleData with gender := some "X" }

/-- sampleData with gender missing and a non-positive applicant income. -/
def missingGenderData : LoanData :=
  { sampleData with gender := none, applicant_income := some (-5) }

/-- sampleData with zero household income. -/
def zeroIncomeData : LoanData :=
  { sampleData with applicant_income := some 0, coapplicant_income := some 0 }

/-- sampleData with an unaffordable loan: 50000 over 10 periods on income
5849, an EMI-to-income quotient of 5000/5849, above 0.8. -/
def emiHighData : LoanData :=
  { sampleData with loan_amount := some 50000, loan_amount_term := some 10 }

/-- sampleData with a zero loan term (present and equal to 0). -/
def zeroTermData : LoanData := { sampleData with loan_amount_term := some 0 }

/-- Concrete weight rows: a duplicated active feature name (later row wins in
the dict comprehension) and an inactive row. -/
def sampleWeightRows : List WeightRow :=
  [{ feature_name := "credit_history", weight := 3, is_active := true },
   { feature_name := "gender", weight := 1, is_active := false },
   { feature_name := "credit_history", weight := 5, is_active := true }]

/-- Concrete application rows for the review queue: one reviewable high-risk
row, one already-decided row, one low-risk row. -/
def reviewRows : List AppRow :=
  [{ application_id := "LOAN_A", applicant_income := some 5849,
     loan_amount := some 128, predicted_approval := some "No",
     risk_score := some 75, risk_category := some "High",
     recommendation := some "Reject", final_status := none,
     created_at := 10 },
   { application_id := "LOAN_B", applicant_income := some 5849,
     loan_amount := some 128, predicted_approval := some "No",
     risk_score := some 90, risk_category := some "High",
     recommendation := some "Reject", final_status := some "No",
     created_at := 20 },
   { application_id := "LOAN_C", applicant_income := some 5849,
     loan_amount := some 128, predicted_approval := some "Yes",
     risk_score := some 80, risk_category := some "High",
     recommendation := some "Reject", final_status := none,
     created_at := 30 }]

/-! Helper lemmas. -/

/-- A triggered rule's message appears in the filterMap of a rule table. -/
theorem mem_ruleErrors {rules : List (Bool × String)} {p : Bool × String}
    (hp : p ∈ rules) (ht : p.1 = true) :
    p.2 ∈ rules.filterMap fun q => if q.1 then some q.2 else none :=
  List.mem_filterMap.mpr ⟨p, hp, by rw [ht]; simp⟩

/-- The EMI block never raises and returns its flag's message list. -/
theorem emiCheck_eq (d : LoanData) :
    emiCheck d = .ok (if emiFlag d then [emiMsg] else []) := by
  unfold emiCheck emiFlag
  cases hla : d.loan_amount with
  | none => rfl
  | some la =>
    cases ht : d.loan_amount_term with
    | none => rfl
    | some t =>
      dsimp only
      by_cases h0 : la = 0 ∨ t = 0
      · rw [if_pos h0, if_pos h0]; simp
      · rw [if_neg h0, if_neg h0]
        have ht0 : t ≠ 0 := fun h => h0 (Or.inr h)
        unfold pyDiv
        rw [if_neg ht0]
        dsimp only
        by_cases hti : 0 < totalIncome d
        · rw [if_pos hti, if_pos hti, if_neg (ne_of_gt hti)]
          dsimp only
          by_cases hr : (4 : ℚ)/5 < la / t / totalIncome d
          · simp [hr]
          · simp [hr]
        · rw [if_neg hti, if_neg hti]
          simp

example : validate_loan_application sampleData = .ok () := by
  norm_num [validate_loan_application, sampleData, missingFieldErrors,
    missingRules, emiCheck, pyDiv, baseErrors, baseRules, invalidStr,
    invalidNum, totalIncome]

/-- C10: validate_loan_application never raises a division-by-zero error;
the EMI division is guarded, and when total household income is not strictly
positive the quotient is treated as infinite, so the EMI ceiling violation is
flagged whenever loan_amount and loan_amount_term are present and
non-zero. -/
theorem validator_never_divides_by_zero (d : LoanData) :
    validate_loan_application d ≠ .error .zeroDivision ∧
    (∀ la t, d.loan_amount = some la → la ≠ 0 →
      d.loan_amount_term = some t → t ≠ 0 → totalIncome d ≤ 0 →
      emiCheck d = .ok [emiMsg]) := by
  constructor
  · unfold validate_loan_application
    by_cases hm : missingFieldErrors d = []
    · rw [if_pos hm, emiCheck_eq]
      dsimp only
      by_cases he : baseErrors d ++ (if emiFlag d then [emiMsg] else []) = []
      · rw [if_pos he]; simp
      · rw [if_neg he]; simp
    · rw [if_neg hm]; simp
  · intro la t hla hla0 ht ht0 hti
    rw [emiCheck_eq]
    have hflag : emiFlag d = true := by
      unfold emiFlag
      rw [hla, ht]
      dsimp only
      rw [if_neg (by push_neg; exact ⟨hla0, ht0⟩), if_neg (not_lt.mpr hti)]
    rw [hflag]
    simp

/-- Witness for C10 at concrete input: zero household income, non-zero loan
fields; the EMI block flags the violation instead of dividing by zero. -/
theorem validator_never_divides_by_zero_witness :
    emiCheck zeroIncomeData = .ok [emiMsg] :=
  (validator_never_divides_by_zero zeroIncomeData).2 128 360 rfl
    (by norm_num) rfl (by norm_num)
    (by norm_num [totalIncome, zeroIncomeData, sampleData])

/-- C4: with no missing required field and non-zero loan fields, an
EMI-to-income quotient above 0.8 makes validation raise, and the raised error
lists the specific EMI violation message. -/
theorem emi_violation_listed (d : LoanData) (la t : ℚ)
    (hm : missingFieldErrors d = [])
    (hla : d.loan_amount = some la) (hla0 : la ≠ 0)
    (ht : d.loan_amount_term = some t) (ht0 : t ≠ 0)
    (hr : (4 : ℚ)/5 <
      la / t / (d.applicant_income.getD 0 + d.coapplicant_income.getD 0)) :
    validate_loan_application d =
      .error (.validation (baseErrors d ++ [emiMsg])) ∧
    emiMsg ∈ baseErrors d ++ [emiMsg] := by
  have hflag : emiFlag d = true := by
    unfold emiFlag
    rw [hla, ht]
    dsimp only
    rw [if_neg (by push_neg; exact ⟨hla0, ht0⟩)]
    by_cases hti : 0 < totalIncome d
    · rw [if_pos hti]
      exact decide_eq_true hr
    · rw [if_neg hti]
  constructor
  · unfold validate_loan_application
    rw [if_pos hm, emiCheck_eq, hflag]
    dsimp only
    rw [if_neg (by simp)]
    simp
  · simp

/-- Witness for C4 at concrete input: loan 50000 over 10 periods on income
5849 (quotient 5000/5849 is above 0.8); the raised error lists the EMI
violation. -/
theorem emi_violation_listed_witness :
    validate_loan_application emiHighData =
      .error (.validation (baseErrors emiHighData ++ [emiMsg])) ∧
    emiMsg ∈ baseErrors emiHighData ++ [emiMsg] :=
  emi_violation_listed emiHighData 50000 10
    (by norm_num [missingFieldErrors, missingRules, emiHighData, sampleData])
    rfl (by norm_num) rfl (by norm_num)
    (by norm_num [emiHighData, sampleData])

/-- C3 (amended): validation enumerates violations in two phases. If any
required field is missing, the raised error enumerates exactly the messages
of all missing required fields (and nothing else is checked). If no required
field is missing, every triggered enumeration-domain, numeric-sanity,
business-rule and EMI violation has its message in the raised error
together. -/
theorem validator_enumerates_by_phase (d : LoanData) :
    (missingFieldErrors d ≠ [] →
      validate_loan_application d =
        .error (.validation (missingFieldErrors d))) ∧
    (missingFieldErrors d = [] →
      ∀ errs, validate_loan_application d = .error (.validation errs) →
        ∀ p ∈ baseRules d ++ [(emiFlag d, emiMsg)], p.1 = true →
          p.2 ∈ errs) := by
  constructor
  · intro hm
    unfold validate_loan_application
    rw [if_neg hm]
  · intro hm errs hv p hp hpt
    unfold validate_loan_application at hv
    rw [if_pos hm, emiCheck_eq] at hv
    dsimp only at hv
    by_cases he : baseErrors d ++ (if emiFlag d then [emiMsg] else []) = []
    · rw [if_pos he] at hv
      exact absurd hv (by simp)
    · rw [if_neg he] at hv
      have herrs : errs = baseErrors d ++ (if emiFlag d then [emiMsg] else []) := by
        have := (Except.error.inj hv)
        exact (VError.validation.inj this).symm
      subst herrs
      rcases List.mem_append.mp hp with hbase | hemi
      · exact List.mem_append_left _ (mem_ruleErrors hbase hpt)
      · have hpe : p = (emiFlag d, emiMsg) := by simpa using hemi
        subst hpe
        have : emiFlag d = true := hpt
        rw [this]
        simp

/-- Witness for C3 at a concrete input with no missing field and an invalid
gender value: the gender enumeration rule's message is in the raised list. -/
theorem validator_enumerates_by_phase_witness :
    (invalidStr invalidGenderData.gender ["Male", "Female"],
      "Field gender must be one of [Male, Female]").2 ∈
      ["Field gender must be one of [Male, Female]"] :=
  (validator_enumerates_by_phase invalidGenderData).2
    (by norm_num [missingFieldErrors, missingRules, invalidGenderData,
      sampleData])
    ["Field gender must be one of [Male, Female]"]
    (by norm_num [validate_loan_application, missingFieldErrors, missingRules,
      invalidGenderData, sampleData, emiCheck, pyDiv, baseErrors, baseRules,
      invalidStr, invalidNum, totalIncome]; decide)
    _ (List.mem_append_left _ (List.mem_cons_self _ _))
    (by decide)

/-- Counterexample for C3 as frozen: with gender missing and a non-positive
applicant income, the raised error lists only the missing-field violation;
the numeric-sanity violation that is present in the same input is not
enumerated, so the error does not list every violated rule together. -/
theorem validator_enumeration_counterexample :
    validate_loan_application missingGenderData =
      .error (.validation ["Field gender is required"]) ∧
    missingGenderData.applicant_income.getD 0 ≤ 0 ∧
    "Applicant income must be positive" ∉ ["Field gender is required"] := by
  refine ⟨?_, ?_, ?_⟩
  · norm_num [validate_loan_application, missingFieldErrors, missingRules,
      missingGenderData, sampleData]; decide
  · norm_num [missingGenderData, sampleData]
  · decide

/-- The clamp onto the risk scale is bounded, and the predictor's category
assignment agrees with the spec threshold function. -/
theorem clampScore_bounds (x : ℚ) : 0 ≤ clampScore x ∧ clampScore x ≤ 100 :=
  ⟨le_max_left 0 _, max_le (by norm_num) (min_le_left _ _)⟩

/-- C1: every prediction result the predictor returns (ML path or fallback
path, any input, any weight configuration) has its risk_score in the
interval from 0 to 100, and its risk_category is the deterministic threshold
function of the risk_score (below 30 Low, 30 to 70 Medium, above 70 High). -/
theorem prediction_risk_invariant (p : LoanPredictor) (d : LoanData)
    (ws : List (String × ℚ)) (r : PredictionResult)
    (h : p.predict d ws = .ok r) :
    0 ≤ r.risk_score ∧ r.risk_score ≤ 100 ∧
      r.risk_category = riskCategorySpec r.risk_score := by
  have hcat : ∀ s : ℚ, riskCategoryOf s = riskCategorySpec s := fun s => rfl
  cases hp : p.model with
  | none =>
    rw [LoanPredictor.predict, hp] at h
    have hr : r = fallbackPredict ws d := (Except.ok.inj h).symm
    subst hr
    exact ⟨(clampScore_bounds _).1, (clampScore_bounds _).2, hcat _⟩
  | some m =>
    rw [LoanPredictor.predict, hp] at h
    dsimp only at h
    cases hml : m.predictProb d ws with
    | ok prob =>
      rw [hml] at h
      have hr : r = mlResult d prob := (Except.ok.inj h).symm
      subst hr
      exact ⟨(clampScore_bounds _).1, (clampScore_bounds _).2, hcat _⟩
    | error e =>
      rw [hml] at h
      exact absurd h (by simp)

/-- Witness for C1: the fallback result on the sample input under the empty
weight configuration. -/
theorem prediction_risk_invariant_witness :
    0 ≤ (fallbackPredict [] sampleData).risk_score ∧
    (fallbackPredict [] sampleData).risk_score ≤ 100 ∧
    (fallbackPredict [] sampleData).risk_category =
      riskCategorySpec (fallbackPredict [] sampleData).risk_score :=
  prediction_risk_invariant (mkPredictor (.error "model file missing"))
    sampleData [] (fallbackPredict [] sampleData) rfl

/-- C2: when the model artifact is absent or failed to load (the load did
not succeed), every prediction call returns the complete fallback result;
no exception reaches the caller. -/
theorem fallback_on_missing_model (load : Except String MLModel)
    (d : LoanData) (ws : List (String × ℚ))
    (h : ∀ m, load ≠ .ok m) :
    (mkPredictor load).predict d ws = .ok (fallbackPredict ws d) := by
  cases load with
  | ok m => exact absurd rfl (h m)
  | error e => rfl

/-- Witness for C2: with a failed model load, prediction on the sample input
is the fallback result. -/
theorem fallback_on_missing_model_witness :
    (mkPredictor (.error "model file missing")).predict sampleData [] =
      .ok (fallbackPredict [] sampleData) :=
  fallback_on_missing_model (.error "model file missing") sampleData []
    (fun _ h => Except.noConfusion h)

/-- C5: when validation and prediction succeed, process_loan_application
returns the assembled response whatever the persistence outcome is (the
persistence outcome is universally quantified and absent from the response):
the repository raising or returning None is swallowed and never surfaces. -/
theorem persistence_failure_swallowed (appId : String)
    (validv : Except (List String) Unit)
    (wsOut : Except String (List (String × ℚ)))
    (predOut : List (String × ℚ) → Except String PredictionResult)
    (explOut : Except String String)
    (persist : Except String (Option Unit))
    (pred : PredictionResult)
    (hv : validv = .ok ())
    (hpred : predOut
      (effectiveWeights ⟨true, validv, wsOut, predOut, explOut, persist⟩) =
        .ok pred) :
    process_loan_application appId
        ⟨true, validv, wsOut, predOut, explOut, persist⟩ =
      .ok (buildResponse appId pred
        (explanationUsed ⟨true, validv, wsOut, predOut, explOut, persist⟩
          pred)) := by
  subst hv
  simp [process_loan_application, hpred]

/-- Witness for C5: a concrete environment whose weight store and explainer
fail and whose persistence raises; the response is still assembled and
returned. -/
theorem persistence_failure_swallowed_witness :
    process_loan_application "LOAN_20240101_AB12CD34"
        ⟨true, .ok (), .error "weight store unreachable",
          fun _ => .ok samplePred, .error "explanation service down",
          .error "database save failed"⟩ =
      .ok (buildResponse "LOAN_20240101_AB12CD34" samplePred
        (explanationUsed ⟨true, .ok (), .error "weight store unreachable",
          fun _ => .ok samplePred, .error "explanation service down",
          .error "database save failed"⟩ samplePred)) :=
  persistence_failure_swallowed "LOAN_20240101_AB12CD34" (.ok ())
    (.error "weight store unreachable") (fun _ => .ok samplePred)
    (.error "explanation service down") (.error "database save failed")
    samplePred rfl rfl

/-- C7: update_feature_weight raises the validation error exactly when the
weight lies outside the half-open interval from 0 (exclusive) to 10
(inclusive); inside it, the repository's create-or-update outcome is
returned unchanged. -/
theorem update_feature_weight_spec (w : ℚ) (repo : Bool) :
    (raises (update_feature_weight w repo) = true ↔ w ≤ 0 ∨ 10 < w) ∧
    (0 < w → w ≤ 10 → update_feature_weight w repo = .ok repo) := by
  unfold update_feature_weight
  by_cases h : w ≤ 0 ∨ 10 < w
  · rw [if_pos h]
    refine ⟨⟨fun _ => h, fun _ => rfl⟩, fun h1 h2 => ?_⟩
    rcases h with h | h
    · exact absurd h1 (not_lt.mpr h)
    · exact absurd h2 (not_le.mpr h)
  · rw [if_neg h]
    exact ⟨⟨fun hr => by simp [raises] at hr, fun hh => absurd hh h⟩,
      fun _ _ => rfl⟩

/-- Witness for C7: weight 5 with a repository returning True is accepted
and delegated. -/
theorem update_feature_weight_spec_witness :
    update_feature_weight 5 true = .ok true :=
  (update_feature_weight_spec 5 true).2 (by norm_num) (by norm_num)

/-- C8 (amended): whenever no client is configured (missing credentials) or
the single external call fails, generate_explanation answers with the
deterministic rule-based template, without retrying; and provided the input's
loan_amount_term is not the value 0, the rule-based template itself raises no
exception, so none reaches the caller. -/
theorem explanation_degrades (d : LoanData) (pred : PredictionResult)
    (e : String) (h : d.loan_amount_term ≠ some 0) :
    raises (ruleBasedExplanation d pred) = false ∧
    generate_explanation none d pred = ruleBasedExplanation d pred ∧
    generate_explanation (some (.error e)) d pred =
      ruleBasedExplanation d pred := by
  refine ⟨?_, rfl, rfl⟩
  have h1 : d.loan_amount_term.getD 1 ≠ 0 := by
    cases ht : d.loan_amount_term with
    | none => simp
    | some t =>
      simp only [Option.getD_some]
      intro h0
      exact h (by rw [ht, h0])
  unfold ruleBasedExplanation pyDiv
  rw [if_neg h1]
  dsimp only
  by_cases hti : 0 < totalIncome d
  · rw [if_pos hti, if_neg (ne_of_gt hti)]
    dsimp only
    split <;> first | rfl | (split <;> rfl)
  · rw [if_neg hti]
    dsimp only
    split <;> first | rfl | (split <;> rfl)

/-- Witness for C8 at the sample input (non-zero term) with a failing
external call. -/
theorem explanation_degrades_witness :
    raises (ruleBasedExplanation sampleData samplePred) = false ∧
    generate_explanation none sampleData samplePred =
      ruleBasedExplanation sampleData samplePred ∧
    generate_explanation (some (.error "service error")) sampleData
        samplePred =
      ruleBasedExplanation sampleData samplePred :=
  explanation_degrades sampleData samplePred "service error"
    (by norm_num [sampleData])

/-- Counterexample for C8 as frozen: with loan_amount_term present and equal
to 0 and no client configured, generate_explanation raises ZeroDivisionError
to its caller (the unguarded division in the rule-based template). -/
theorem explanation_zero_term_counterexample :
    generate_explanation none zeroTermData samplePred =
      .error .zeroDivision := by
  norm_num [generate_explanation, ruleBasedExplanation, pyDiv, zeroTermData,
    sampleData]

/-- Replacing the value at key k does not change lookups at other keys. -/
theorem dictGet_map_replace_ne (m : List (String × ℚ)) (k : String) (v : ℚ)
    (name : String) (hnk : name ≠ k) :
    dictGet (m.map fun p => if p.1 = k then (k, v) else p) name =
      dictGet m name := by
  induction m with
  | nil => rfl
  | cons a m ih =>
    by_cases hak : a.1 = k
    · unfold dictGet
      rw [List.map_cons, List.find?_cons, List.find?_cons]
      have h1 : (decide (a.1 = name)) = false :=
        decide_eq_false (by rw [hak]; exact fun h => hnk h.symm)
      have h2 : (decide ((if a.1 = k then (k, v) else a).1 = name)) = false := by
        rw [if_pos hak]
        exact decide_eq_false fun h => hnk h.symm
      rw [h1, h2]
      exact ih
    · unfold dictGet
      rw [List.map_cons, List.find?_cons, List.find?_cons, if_neg hak]
      cases ha : decide (a.1 = name) with
      | true => rfl
      | false => exact ih

/-- Replacing the value at key k makes the lookup at k yield the new value,
provided some entry with key k exists. -/
theorem dictGet_map_replace_eq (m : List (String × ℚ)) (k : String) (v : ℚ)
    (hany : m.any (fun p => p.1 = k) = true) :
    dictGet (m.map fun p => if p.1 = k then (k, v) else p) k = some v := by
  induction m with
  | nil => simp at hany
  | cons a m ih =>
    by_cases hak : a.1 = k
    · unfold dictGet
      rw [List.map_cons, List.find?_cons, if_pos hak]
      simp
    · rw [List.any_cons] at hany
      have hm : m.any (fun p => p.1 = k) = true := by
        rcases Bool.or_eq_true_iff.mp hany with h | h
        · exact absurd (of_decide_eq_true h) hak
        · exact h
      unfold dictGet
      rw [List.map_cons, List.find?_cons, if_neg hak]
      have h1 : (decide (a.1 = k)) = false := decide_eq_false hak
      rw [h1]
      exact ih hm

/-- If no entry has key k, the lookup at k is none. -/
theorem dictGet_eq_none (m : List (String × ℚ)) (k : String)
    (hany : m.any (fun p => p.1 = k) = false) :
    dictGet m k = none := by
  unfold dictGet
  rw [List.find?_eq_none.mpr]
  · rfl
  · intro p hp hpk
    have : m.any (fun p => p.1 = k) = true :=
      List.any_eq_true.mpr ⟨p, hp, hpk⟩
    rw [this] at hany
    exact Bool.noConfusion hany

/-- Python dict insertion: the inserted key now maps to the new value, every
other key is unchanged. -/
theorem dictGet_insert (m : List (String × ℚ)) (k : String) (v : ℚ)
    (name : String) :
    dictGet (dictInsert m k v) name =
      if name = k then some v else dictGet m name := by
  unfold dictInsert
  by_cases hany : m.any (fun p => p.1 = k) = true
  · rw [if_pos hany]
    by_cases hnk : name = k
    · subst hnk
      rw [if_pos rfl]
      exact dictGet_map_replace_eq m name v hany
    · rw [if_neg hnk]
      exact dictGet_map_replace_ne m k v name hnk
  · rw [if_neg hany]
    unfold dictGet
    rw [List.find?_append]
    by_cases hnk : name = k
    · subst hnk
      have hm : dictGet m name = none :=
        dictGet_eq_none m name (Bool.eq_false_iff.mpr hany)
      unfold dictGet at hm
      cases hfind : m.find? fun p => p.1 = name with
      | some p => rw [hfind] at hm; simp at hm
      | none =>
        rw [List.find?_singleton]
        simp
    · rw [List.find?_singleton]
      have hkv : (decide ((k, v).1 = name)) = false :=
        decide_eq_false fun h => hnk h.symm
      rw [hkv]
      simp [dictGet, hnk]

/-- The dict comprehension over rows maps each name to the weight of the
last row carrying that name (later duplicates overwrite earlier ones). -/
theorem buildWeightDict_get (rows : List WeightRow) (name : String) :
    dictGet (buildWeightDict rows) name =
      (rows.reverse.find? fun r => r.feature_name = name).map
        fun r => r.weight := by
  induction rows using List.reverseRecOn with
  | nil => rfl
  | append_singleton rows r ih =>
    have hb : buildWeightDict (rows ++ [r]) =
        dictInsert (buildWeightDict rows) r.feature_name r.weight := by
      unfold buildWeightDict
      rw [List.foldl_append]
      rfl
    rw [hb, dictGet_insert, List.reverse_append]
    simp only [List.reverse_singleton, List.singleton_append, List.find?_cons]
    by_cases hnk : name = r.feature_name
    · rw [if_pos hnk]
      have hd : (decide (r.feature_name = name)) = true :=
        decide_eq_true hnk.symm
      rw [hd]
      rfl
    · rw [if_neg hnk]
      have hd : (decide (r.feature_name = name)) = false :=
        decide_eq_false fun h => hnk h.symm
      rw [hd]
      exact ih

/-- C6: get_active_weights is total (no exception escapes; both handlers
return the default table). On a successful query it returns exactly the dict
of the active rows: each feature name maps to the weight of the last active
row with that name, and nothing else. On any query failure it returns the
hardcoded default weight table. -/
theorem get_active_weights_spec (q : Except String (List WeightRow)) :
    (∀ rows, q = .ok rows → ∀ name,
      dictGet (get_active_weights q) name =
        (((rows.filter fun r => r.is_active).reverse.find?
          fun r => r.feature_name = name).map fun r => r.weight)) ∧
    (∀ e, q = .error e → get_active_weights q = default_weights) := by
  constructor
  · rintro rows rfl name
    exact buildWeightDict_get _ name
  · rintro e rfl
    rfl

/-- Witness for C6 on concrete rows with a duplicated active name and an
inactive row. -/
theorem get_active_weights_spec_witness :
    dictGet (get_active_weights (.ok sampleWeightRows)) "credit_history" =
      (((sampleWeightRows.filter fun r => r.is_active).reverse.find?
        fun r => r.feature_name = "credit_history").map fun r => r.weight) :=
  (get_active_weights_spec (.ok sampleWeightRows)).1 sampleWeightRows rfl
    "credit_history"

example :
    dictGet (get_active_weights (.ok sampleWeightRows)) "credit_history" =
      some 5 := by decide

example : dictGet (get_active_weights (.ok sampleWeightRows)) "gender" =
    none := by decide

example : get_active_weights (.error "db down") = default_weights := rfl

/-- C9: the review queue returns only rows with final_status unset and
risk_score above 60, ordered by creation time descending; total_count counts
all matching rows; has_more holds exactly when total_count exceeds
offset + limit; and any query error yields the empty page. -/
theorem review_queue_spec (q : Except String (List AppRow))
    (limit offset : Nat) :
    (∀ e, q = .error e →
      get_applications_for_review q limit offset =
        { applications := [], total_count := 0, has_more := false }) ∧
    (∀ rows, q = .ok rows →
      (∀ a ∈ (get_applications_for_review q limit offset).applications,
          a ∈ rows ∧ needsReview a = true) ∧
      (get_applications_for_review q limit offset).applications.Pairwise
        (fun a b => b.created_at ≤ a.created_at) ∧
      (get_applications_for_review q limit offset).total_count =
        (rows.filter needsReview).length ∧
      ((get_applications_for_review q limit offset).has_more = true ↔
        offset + limit <
          (get_applications_for_review q limit offset).total_count)) := by
  constructor
  · rintro e rfl
    rfl
  · rintro rows rfl
    have happs :
        (get_applications_for_review (.ok rows) limit offset).applications =
          (((rows.filter needsReview).mergeSort byCreatedDesc).drop
            offset).take limit := rfl
    have htot :
        (get_applications_for_review (.ok rows) limit offset).total_count =
          ((rows.filter needsReview).mergeSort byCreatedDesc).length := rfl
    have hmore :
        (get_applications_for_review (.ok rows) limit offset).has_more =
          decide (offset + limit <
            ((rows.filter needsReview).mergeSort byCreatedDesc).length) := rfl
    refine ⟨?_, ?_, ?_, ?_⟩
    · intro a ha
      rw [happs] at ha
      have h1 : a ∈ (rows.filter needsReview).mergeSort byCreatedDesc :=
        List.mem_of_mem_drop (List.mem_of_mem_take ha)
      have h2 : a ∈ rows.filter needsReview := List.mem_mergeSort.mp h1
      have h3 := List.mem_filter.mp h2
      exact ⟨h3.1, h3.2⟩
    · rw [happs]
      have hs : ((rows.filter needsReview).mergeSort byCreatedDesc).Pairwise
          (fun a b => byCreatedDesc a b = true) := by
        apply List.sorted_mergeSort
        · intro a b c hab hbc
          unfold byCreatedDesc at hab hbc ⊢
          exact decide_eq_true
            (le_trans (of_decide_eq_true hbc) (of_decide_eq_true hab))
        · intro a b
          unfold byCreatedDesc
          rcases Nat.le_total b.created_at a.created_at with h | h
          · simp [h]
          · simp [h]
      have hsub :
          ((((rows.filter needsReview).mergeSort byCreatedDesc).drop
            offset).take limit).Sublist
            ((rows.filter needsReview).mergeSort byCreatedDesc) :=
        (List.take_sublist _ _).trans (List.drop_sublist _ _)
      exact (List.Pairwise.sublist hsub hs).imp fun h => of_decide_eq_true h
    · rw [htot]
      exact (List.mergeSort_perm _ _).length_eq
    · rw [hmore, htot]
      simp

/-- Witness for C9 on three concrete rows (one decided, one low-risk, one
reviewable) with limit 1 and offset 0. -/
theorem review_queue_spec_witness :
    (get_applications_for_review (.ok reviewRows) 1 0).total_count =
      (reviewRows.filter needsReview).length ∧
    ((get_applications_for_review (.ok reviewRows) 1 0).has_more = true ↔
      0 + 1 < (get_applications_for_review (.ok reviewRows) 1 0).total_count) :=
  ⟨((review_queue_spec (.ok reviewRows) 1 0).2 reviewRows rfl).2.2.1,
   ((review_queue_spec (.ok reviewRows) 1 0).2 reviewRows rfl).2.2.2⟩

example :
    get_applications_for_review (.error "query failed") 50 0 =
      { applications := [], total_count := 0, has_more := false } := rfl
